import Mathlib

/-!
Shallow embedding of `src/usecases/web_api_testing/prompt_engineer.py`
(class `PromptEngineer` and enum `PromptStrategy`).

Python dynamic typing is modelled explicitly where it matters:
the `strategy` argument may be any value (`StratVal`), the `prompt`
attribute starts out as the very list object `prompt_history`
(`PromptVal.historyAlias`, from `self.prompt = self.prompt_history`),
and `"\n".join` raises `TypeError` on a non-string item (`pyJoin`).
The OpenAI completion endpoint is an oracle argument mapping the
request built by `get_response` to a list of choice texts.
-/

namespace PromptEng

/-- The `PromptStrategy` enum (values `IN_CONTEXT`, `CHAIN_OF_THOUGHT`,
`TREE_OF_THOUGHT`). -/
inductive PromptStrategy
  | IN_CONTEXT
  | CHAIN_OF_THOUGHT
  | TREE_OF_THOUGHT
deriving DecidableEq, Repr

/-- A Python value passed as the `strategy` constructor argument: one of the
three enum members, or any other value (indexed by a natural number). -/
inductive StratVal
  | known (s : PromptStrategy)
  | other (n : Nat)
deriving DecidableEq, Repr

/-- The Python value held by the `prompt` attribute: `historyAlias` is the
construction-time value of line 38, `self.prompt = self.prompt_history`
(the transcript list object itself); `str` is a string assigned to the
attribute from outside the class. -/
inductive PromptVal
  | historyAlias
  | str (s : String)
deriving DecidableEq, Repr

/-- Python exceptions that the embedded code can raise. -/
inductive PyErr
  | typeError
  | indexError
  | attributeError
deriving DecidableEq, Repr

/-- An item of the sequence handed to `"\n".join`: a string, or the
transcript list (when the un-reassigned `prompt` attribute is included). -/
inductive PyItem
  | str (s : String)
  | list (xs : List String)
deriving DecidableEq, Repr

/-- Whether a join item is a Python `str`. -/
def isStr : PyItem → Bool
  | .str _ => true
  | .list _ => false

/-- The string carried by a join item (unused in the `TypeError` branch). -/
def itemStr : PyItem → String
  | .str s => s
  | .list _ => ""

/-- Python's `sep.join(items)`: raises `TypeError` when any item is not a
string, otherwise intercalates the items with the separator. -/
def pyJoin (sep : String) (items : List PyItem) : Except PyErr String :=
  if items.all isStr then .ok (String.intercalate sep (items.map itemStr))
  else .error .typeError

/-- Tag naming one of the three bound formatter methods stored in the
`strategies` dict at construction. -/
inductive Formatter
  | inContextLearning
  | chainOfThought
  | treeOfThought
deriving DecidableEq, Repr

/-- State of a `PromptEngineer` instance.  `initial_prompt_set` records
whether the `initial_prompt` attribute exists on the instance
(`generate_initial_prompt` is `pass`, so its value, when set, is `None`). -/
structure PromptEngineer where
  strategy : StratVal
  api_key : String
  prompt_history : List String
  initial_prompt_set : Bool
  prompt : PromptVal
  strategies : List (StratVal × Formatter)
deriving DecidableEq, Repr

/-- The strategy dict built in `__init__` (lines 41-45). -/
def defaultStrategies : List (StratVal × Formatter) :=
  [(.known .IN_CONTEXT, .inContextLearning),
   (.known .CHAIN_OF_THOUGHT, .chainOfThought),
   (.known .TREE_OF_THOUGHT, .treeOfThought)]

/-- Python `dict.get`: the value stored under the key, if any. -/
def dictGet (d : List (StratVal × Formatter)) (k : StratVal) : Option Formatter :=
  match d with
  | [] => none
  | (k2, v) :: rest => if k2 = k then some v else dictGet rest k

/-- `PromptEngineer.__init__` (lines 9-45).  With a (non-None) `history` the
transcript is that history and `initial_prompt` is never assigned; without
one the transcript is empty and `initial_prompt` is assigned (the `None`
returned by `generate_initial_prompt`).  Either way `prompt` becomes the
alias of `prompt_history` and the strategy dict is built. -/
def PromptEngineer.init (strategy : StratVal) (api_key : String)
    (history : Option (List String)) : PromptEngineer :=
  match history with
  | some h =>
      { strategy := strategy, api_key := api_key, prompt_history := h,
        initial_prompt_set := false, prompt := .historyAlias,
        strategies := defaultStrategies }
  | none =>
      { strategy := strategy, api_key := api_key, prompt_history := [],
        initial_prompt_set := true, prompt := .historyAlias,
        strategies := defaultStrategies }

/-- The current value of `self.prompt` as a join item: the transcript list
while it is still the construction-time alias, else the assigned string. -/
def PromptEngineer.promptItem (st : PromptEngineer) : PyItem :=
  match st.prompt with
  | .historyAlias => .list st.prompt_history
  | .str s => .str s

/-- `in_context_learning` (line 104):
`"\n".join(self.prompt_history + [self.prompt])`. -/
def in_context_learning (st : PromptEngineer) : Except PyErr String :=
  pyJoin "\n" (st.prompt_history.map PyItem.str ++ [st.promptItem])

/-- `chain_of_thought` (lines 115-118):
`"\n".join([self.prompt] + ["Let's think step by step."])`. -/
def chain_of_thought (st : PromptEngineer) : Except PyErr String :=
  pyJoin "\n" ([st.promptItem] ++ [PyItem.str "Let's think step by step."])

/-- The fixed multi-expert template of `tree_of_thought` (lines 132-139),
one implicitly concatenated Python string. -/
def tree_of_thought_template : String :=
  "Imagine three different experts are answering this question.\n" ++
  "All experts will write down one step of their thinking,\n" ++
  "then share it with the group.\n" ++
  "After that, all experts will proceed to the next step, and so on.\n" ++
  "If any expert realizes they're wrong at any point, they will leave.\n" ++
  "The question is: "

/-- `tree_of_thought` (lines 122-140):
`"\n".join([self.prompt] + tree_of_thoughts_steps)`. -/
def tree_of_thought (st : PromptEngineer) : Except PyErr String :=
  pyJoin "\n" ([st.promptItem] ++ [PyItem.str tree_of_thought_template])

/-- Run the bound method a `Formatter` tag names on the current state. -/
def applyFormatter : Formatter → PromptEngineer → Except PyErr String
  | .inContextLearning, st => in_context_learning st
  | .chainOfThought, st => chain_of_thought st
  | .treeOfThought, st => tree_of_thought st

/-- `generate_prompt` (lines 47-59): look the configured strategy up in the
dict; call the formatter if found (`if prompt_func:`), otherwise fall
through and return `None`. -/
def generate_prompt (st : PromptEngineer) : Except PyErr (Option String) :=
  match dictGet st.strategies st.strategy with
  | some f => (applyFormatter f st).map some
  | none => .ok none

/-- The request `get_response` sends to `openai.Completion.create`
(lines 71-78).  The float temperature `0.7` is modelled as the rational
`7/10`. -/
structure CompletionRequest where
  engine : String
  prompt : String
  max_tokens : Nat
  n : Nat
  stop : Option (List String)
  temperature : ℚ
deriving DecidableEq, Repr

/-- The concrete request built for a given prompt. -/
def completionRequest (prompt : String) : CompletionRequest :=
  { engine := "text-davinci-002", prompt := prompt, max_tokens := 150,
    n := 1, stop := none, temperature := 7/10 }

/-- Drop the leading whitespace characters of a character list. -/
def dropLeadingSpaces : List Char → List Char
  | [] => []
  | c :: cs => if c.isWhitespace then dropLeadingSpaces cs else c :: cs

/-- Python's `str.strip()`: remove whitespace from both ends (whitespace
as `Char.isWhitespace`). -/
def pyStrip (s : String) : String :=
  String.mk ((dropLeadingSpaces (dropLeadingSpaces s.data).reverse).reverse)

/-- `get_response` (lines 61-83).  `api` is the external completion
endpoint, mapping a request to the list of choice texts of its response;
`response.choices[0]` on an empty choice list raises `IndexError` (before
the transcript is touched).  Otherwise the first choice's text is
stripped, the user and system lines are appended to `prompt_history`, and
the stripped text is returned. -/
def get_response (api : CompletionRequest → List String)
    (st : PromptEngineer) (prompt : String) :
    Except PyErr (String × PromptEngineer) :=
  match api (completionRequest prompt) with
  | [] => .error .indexError
  | t :: _ =>
      let response_text := pyStrip t
      .ok (response_text,
        { st with prompt_history :=
            st.prompt_history ++
              ["[User]: " ++ prompt, "[System]: " ++ response_text] })

/-- Reading the `initial_prompt` attribute: `AttributeError` when
`__init__` never assigned it. -/
def read_initial_prompt (st : PromptEngineer) : Except PyErr Unit :=
  if st.initial_prompt_set then .ok () else .error .attributeError

/-- One public operation on a composer: a `generate_prompt` call, or a
`get_response` call whose endpoint answers with the given choice list. -/
inductive Op
  | genPrompt
  | submit (prompt : String) (choices : List String)

/-- Effect of one operation on the state.  `generate_prompt` only reads the
state; a `get_response` call that raises leaves the state as it was. -/
def step (st : PromptEngineer) : Op → PromptEngineer
  | .genPrompt => st
  | .submit prompt choices =>
      match get_response (fun _ => choices) st prompt with
      | .ok (_, st2) => st2
      | .error _ => st

/-- Run a sequence of operations. -/
def runOps (st : PromptEngineer) (ops : List Op) : PromptEngineer :=
  ops.foldl step st

/-- External reassignment of the `prompt` attribute to a string (the only
way it ever becomes a string; no method of the class writes it). -/
def withPrompt (st : PromptEngineer) (p : String) : PromptEngineer :=
  { st with prompt := .str p }

/-- Concrete state after one exchange (prompt "Q", endpoint answering
" A ") from a freshly constructed composer with an empty transcript. -/
def exampleAfter : PromptEngineer :=
  { PromptEngineer.init (.known .CHAIN_OF_THOUGHT) "k" none with
    prompt_history := ["[User]: Q", "[System]: A"] }

/-! Helper lemmas about `pyJoin` and the operation semantics. -/

lemma all_isStr_map_str (l : List String) : (l.map PyItem.str).all isStr = true := by
  induction l with
  | nil => rfl
  | cons x xs ih => simp [List.all_cons, isStr, ih]

lemma map_itemStr_map_str (l : List String) : (l.map PyItem.str).map itemStr = l := by
  induction l with
  | nil => rfl
  | cons x xs ih => simp [itemStr, ih]

lemma pyJoin_all_str (sep : String) (l : List String) :
    pyJoin sep (l.map PyItem.str) = .ok (String.intercalate sep l) := by
  have hcomp : itemStr ∘ PyItem.str = id := rfl
  simp [pyJoin, all_isStr_map_str, List.map_map, hcomp]

lemma intercalate_pair (sep a b : String) :
    String.intercalate sep [a, b] = a ++ sep ++ b := rfl

lemma pyJoin_with_list (sep : String) (l xs : List String) :
    pyJoin sep (l.map PyItem.str ++ [PyItem.list xs]) = .error .typeError := by
  simp [pyJoin, List.all_append, all_isStr_map_str, isStr]

lemma step_history_cases (st : PromptEngineer) (op : Op) :
    (step st op).prompt_history = st.prompt_history ∨
      ∃ u v, (step st op).prompt_history = st.prompt_history ++ [u, v] := by
  cases op with
  | genPrompt => exact Or.inl rfl
  | submit prompt choices =>
      cases choices with
      | nil => exact Or.inl rfl
      | cons t rest =>
          refine Or.inr ⟨"[User]: " ++ prompt, "[System]: " ++ pyStrip t, ?_⟩
          simp [step, get_response]

lemma step_frame (st : PromptEngineer) (op : Op) :
    (step st op).strategy = st.strategy ∧
    (step st op).strategies = st.strategies ∧
    (step st op).api_key = st.api_key ∧
    (step st op).prompt = st.prompt ∧
    (step st op).initial_prompt_set = st.initial_prompt_set := by
  cases op with
  | genPrompt => exact ⟨rfl, rfl, rfl, rfl, rfl⟩
  | submit prompt choices =>
      cases choices with
      | nil => exact ⟨rfl, rfl, rfl, rfl, rfl⟩
      | cons t rest => simp [step, get_response]

lemma step_history_extends (st : PromptEngineer) (op : Op) :
    st.prompt_history <+: (step st op).prompt_history := by
  rcases step_history_cases st op with h | ⟨u, v, h⟩
  · rw [h]
  · rw [h]; exact List.prefix_append _ _

lemma step_history_even (st : PromptEngineer) (op : Op)
    (h : Even st.prompt_history.length) :
    Even (step st op).prompt_history.length := by
  rcases step_history_cases st op with hc | ⟨u, v, hc⟩
  · rw [hc]; exact h
  · rw [hc]; simpa [Nat.even_add] using h

lemma runOps_history_extends (st : PromptEngineer) (ops : List Op) :
    st.prompt_history <+: (runOps st ops).prompt_history := by
  induction ops generalizing st with
  | nil => rfl
  | cons op rest ih =>
      exact (step_history_extends st op).trans (ih (step st op))

lemma runOps_history_even (st : PromptEngineer) (ops : List Op)
    (h : Even st.prompt_history.length) :
    Even (runOps st ops).prompt_history.length := by
  induction ops generalizing st with
  | nil => exact h
  | cons op rest ih => exact ih (step st op) (step_history_even st op h)

lemma runOps_frame (st : PromptEngineer) (ops : List Op) :
    (runOps st ops).strategy = st.strategy ∧
    (runOps st ops).strategies = st.strategies ∧
    (runOps st ops).api_key = st.api_key ∧
    (runOps st ops).prompt = st.prompt ∧
    (runOps st ops).initial_prompt_set = st.initial_prompt_set := by
  induction ops generalizing st with
  | nil => exact ⟨rfl, rfl, rfl, rfl, rfl⟩
  | cons op rest ih =>
      obtain ⟨h1, h2, h3, h4, h5⟩ := step_frame st op
      obtain ⟨g1, g2, g3, g4, g5⟩ := ih (step st op)
      exact ⟨g1.trans h1, g2.trans h2, g3.trans h3, g4.trans h4, g5.trans h5⟩

/-! Claim theorems. -/

/-- C1: with strategy `CHAIN_OF_THOUGHT`, the standard strategy dict, and
the `prompt` attribute holding the string `p`, `generate_prompt` returns
exactly `p` followed by a newline followed by "Let's think step by step.". -/
theorem chain_of_thought_compose (st : PromptEngineer) (p : String)
    (hs : st.strategy = .known .CHAIN_OF_THOUGHT)
    (hd : st.strategies = defaultStrategies)
    (hp : st.prompt = .str p) :
    generate_prompt st = .ok (some (p ++ "\n" ++ "Let's think step by step.")) := by
  simp [generate_prompt, hs, hd, defaultStrategies, dictGet, applyFormatter,
    chain_of_thought, PromptEngineer.promptItem, hp, pyJoin, isStr, itemStr,
    intercalate_pair, Except.map]

/-- C1 witness: the spec scenario with prompt "Is 7 prime?". -/
theorem chain_of_thought_compose_witness :
    generate_prompt
        (withPrompt (PromptEngineer.init (.known .CHAIN_OF_THOUGHT) "k" none) "Is 7 prime?")
      = .ok (some ("Is 7 prime?" ++ "\n" ++ "Let's think step by step.")) :=
  chain_of_thought_compose _ "Is 7 prime?" rfl rfl rfl

/-- C3: with strategy `TREE_OF_THOUGHT`, the standard strategy dict, and
the `prompt` attribute holding the string `p`, `generate_prompt` returns
`p`, a newline, then the fixed multi-expert template verbatim. -/
theorem tree_of_thought_compose (st : PromptEngineer) (p : String)
    (hs : st.strategy = .known .TREE_OF_THOUGHT)
    (hd : st.strategies = defaultStrategies)
    (hp : st.prompt = .str p) :
    generate_prompt st = .ok (some (p ++ "\n" ++ tree_of_thought_template)) := by
  simp [generate_prompt, hs, hd, defaultStrategies, dictGet, applyFormatter,
    tree_of_thought, PromptEngineer.promptItem, hp, pyJoin, isStr, itemStr,
    intercalate_pair, Except.map]

/-- C3 witness: a concrete tree-of-thought composition. -/
theorem tree_of_thought_compose_witness :
    generate_prompt
        (withPrompt (PromptEngineer.init (.known .TREE_OF_THOUGHT) "k" none) "Is 7 prime?")
      = .ok (some ("Is 7 prime?" ++ "\n" ++ tree_of_thought_template)) :=
  tree_of_thought_compose _ "Is 7 prime?" rfl rfl rfl

/-- C2 counterexample: with an empty transcript and prompt "hi",
`generate_prompt` returns "hi", not the claimed "transcript lines joined
by newline, followed by a newline and the fragment" (which would be
"\nhi"). -/
theorem in_context_empty_transcript_counterexample :
    ¬ generate_prompt
        (withPrompt (PromptEngineer.init (.known .IN_CONTEXT) "k" (some [])) "hi")
      = .ok (some (String.intercalate "\n" ([] : List String) ++ "\n" ++ "hi")) := by
  intro h
  rw [show generate_prompt
        (withPrompt (PromptEngineer.init (.known .IN_CONTEXT) "k" (some [])) "hi")
      = Except.ok (some "hi") from rfl] at h
  simp only [Except.ok.injEq, Option.some.injEq] at h
  exact absurd h (by decide)

/-- C2 amended: with strategy `IN_CONTEXT`, the standard strategy dict, and
the `prompt` attribute holding the string `p`, `generate_prompt` returns
the transcript lines and then `p`, all joined by newline in original order
(for a nonempty transcript: the lines joined by newline, a newline, then
`p`; for an empty transcript: just `p`). -/
theorem in_context_compose (st : PromptEngineer) (p : String)
    (hs : st.strategy = .known .IN_CONTEXT)
    (hd : st.strategies = defaultStrategies)
    (hp : st.prompt = .str p) :
    generate_prompt st
      = .ok (some (String.intercalate "\n" (st.prompt_history ++ [p]))) := by
  have hj := pyJoin_all_str "\n" (st.prompt_history ++ [p])
  simp only [List.map_append, List.map_cons, List.map_nil] at hj
  simp [generate_prompt, hs, hd, defaultStrategies, dictGet, applyFormatter,
    in_context_learning, PromptEngineer.promptItem, hp, hj, Except.map]

/-- C2 witness: a two-line transcript followed by the fragment. -/
theorem in_context_compose_witness :
    generate_prompt
        (withPrompt (PromptEngineer.init (.known .IN_CONTEXT) "k" (some ["a", "b"])) "c")
      = .ok (some (String.intercalate "\n" (["a", "b"] ++ ["c"]))) :=
  in_context_compose _ "c" rfl rfl rfl

/-- C4: with the standard strategy dict and a strategy value that is not one
of the three enum members, `generate_prompt` returns `None` and raises
nothing, whatever the rest of the state is. -/
theorem generate_prompt_unmapped (st : PromptEngineer) (n : Nat)
    (hs : st.strategy = .other n)
    (hd : st.strategies = defaultStrategies) :
    generate_prompt st = .ok none := by
  simp [generate_prompt, hs, hd, defaultStrategies, dictGet]

/-- C4 witness: a composer constructed with a non-enum strategy value. -/
theorem generate_prompt_unmapped_witness :
    generate_prompt (PromptEngineer.init (.other 0) "k" none) = .ok none :=
  generate_prompt_unmapped _ 0 rfl rfl

/-- C5: whenever `get_response` returns a response text `r` with new state
`st2`, the new transcript is the prior transcript with exactly the
user-tagged line for the prompt and then the system-tagged line for `r`
appended, all prior entries unchanged. -/
theorem get_response_appends (api : CompletionRequest → List String)
    (st st2 : PromptEngineer) (prompt r : String)
    (h : get_response api st prompt = .ok (r, st2)) :
    st2.prompt_history
      = st.prompt_history ++ ["[User]: " ++ prompt, "[System]: " ++ r] := by
  unfold get_response at h
  cases hc : api (completionRequest prompt) with
  | nil => rw [hc] at h; exact absurd h (by simp)
  | cons t rest =>
      rw [hc] at h
      simp only [Except.ok.injEq, Prod.mk.injEq] at h
      obtain ⟨hr, hst⟩ := h
      rw [← hst, ← hr]

/-- C5 witness: one concrete exchange from an empty transcript. -/
theorem get_response_appends_witness :
    (exampleAfter.prompt_history
      = (PromptEngineer.init (.known .CHAIN_OF_THOUGHT) "k" none).prompt_history
          ++ ["[User]: " ++ "Q", "[System]: " ++ "A"]) :=
  get_response_appends (fun _ => [" A "])
    (PromptEngineer.init (.known .CHAIN_OF_THOUGHT) "k" none) exampleAfter "Q" "A"
    rfl

/-- C6: `get_response` sends the prompt with engine "text-davinci-002",
max_tokens 150, a single completion, no stop sequences and temperature
0.7; it consults the endpoint only at that request, and when the response
has a first choice it returns that choice's text stripped of surrounding
whitespace. -/
theorem get_response_request_params (prompt : String) :
    (completionRequest prompt).engine = "text-davinci-002" ∧
    (completionRequest prompt).max_tokens = 150 ∧
    (completionRequest prompt).n = 1 ∧
    (completionRequest prompt).stop = none ∧
    (completionRequest prompt).temperature = 7 / 10 ∧
    (∀ (api : CompletionRequest → List String) (st : PromptEngineer)
        (t : String) (rest : List String),
      api (completionRequest prompt) = t :: rest →
        (get_response api st prompt).map Prod.fst = .ok (pyStrip t)) ∧
    (∀ (api api2 : CompletionRequest → List String) (st : PromptEngineer),
      api2 (completionRequest prompt) = api (completionRequest prompt) →
        get_response api2 st prompt = get_response api st prompt) := by
  refine ⟨rfl, rfl, rfl, rfl, rfl, ?_, ?_⟩
  · intro api st t rest h
    simp [get_response, h, Except.map]
  · intro api api2 st h
    simp [get_response, h]

/-- C6 witness: a response " A " comes back as the stripped "A". -/
theorem get_response_request_params_witness :
    (get_response (fun _ => [" A "])
        (PromptEngineer.init (.known .CHAIN_OF_THOUGHT) "k" none) "Q").map Prod.fst
      = .ok (pyStrip " A ") :=
  (get_response_request_params "Q").2.2.2.2.2.1
    (fun _ => [" A "]) (PromptEngineer.init (.known .CHAIN_OF_THOUGHT) "k" none)
    " A " [] rfl

/-- C7: from a composer constructed with an empty transcript, after any
sequence of operations the transcript length is even (lines are only ever
appended as a user/system pair by `get_response`), and any further
operations only extend it: the transcript never shrinks and prior entries
stay in place. -/
theorem transcript_even_and_monotone (strat : StratVal) (key : String)
    (history : Option (List String)) (ops more : List Op)
    (h0 : (PromptEngineer.init strat key history).prompt_history = []) :
    Even (runOps (PromptEngineer.init strat key history) ops).prompt_history.length ∧
    (runOps (PromptEngineer.init strat key history) ops).prompt_history <+:
      (runOps (runOps (PromptEngineer.init strat key history) ops)
        more).prompt_history := by
  constructor
  · exact runOps_history_even _ ops (by simp [h0])
  · exact runOps_history_extends _ more

/-- C7 witness: one exchange, then a `generate_prompt` call. -/
theorem transcript_even_and_monotone_witness :
    Even (runOps (PromptEngineer.init (.known .IN_CONTEXT) "k" none)
        [Op.submit "Q" ["A"]]).prompt_history.length ∧
    (runOps (PromptEngineer.init (.known .IN_CONTEXT) "k" none)
        [Op.submit "Q" ["A"]]).prompt_history <+:
      (runOps (runOps (PromptEngineer.init (.known .IN_CONTEXT) "k" none)
          [Op.submit "Q" ["A"]]) [Op.genPrompt]).prompt_history :=
  transcript_even_and_monotone _ "k" none [Op.submit "Q" ["A"]] [Op.genPrompt] rfl

/-- C8: no sequence of `generate_prompt` / `get_response` calls changes the
strategy selected at construction or the strategy-to-method dict. -/
theorem strategy_immutable (st : PromptEngineer) (ops : List Op) :
    (runOps st ops).strategy = st.strategy ∧
    (runOps st ops).strategies = st.strategies :=
  ⟨(runOps_frame st ops).1, (runOps_frame st ops).2.1⟩

/-- C9: constructing with a supplied (non-None) history skips assigning
`initial_prompt`, so reading it fails with `AttributeError` after any
sequence of operations; without a history the attribute is assigned. -/
theorem initial_prompt_skipped (strat : StratVal) (key : String)
    (h : List String) (ops : List Op) :
    (PromptEngineer.init strat key (some h)).initial_prompt_set = false ∧
    read_initial_prompt (runOps (PromptEngineer.init strat key (some h)) ops)
      = .error .attributeError ∧
    (PromptEngineer.init strat key none).initial_prompt_set = true := by
  refine ⟨rfl, ?_, rfl⟩
  have hf := (runOps_frame (PromptEngineer.init strat key (some h)) ops).2.2.2.2
  have hi : (PromptEngineer.init strat key (some h)).initial_prompt_set = false := rfl
  simp [read_initial_prompt, hf, hi]

/-- C10: immediately after construction the `prompt` attribute holds the
transcript list itself (the alias set on line 38), not a string, and for
each of the three mapped strategies `generate_prompt` then raises
`TypeError` from joining a sequence that contains a list. -/
theorem fresh_compose_type_error (strat : PromptStrategy) (key : String)
    (history : Option (List String)) :
    (PromptEngineer.init (.known strat) key history).prompt = .historyAlias ∧
    generate_prompt (PromptEngineer.init (.known strat) key history)
      = .error .typeError := by
  constructor
  · cases history <;> rfl
  · cases strat <;> cases history <;>
      simp [generate_prompt, PromptEngineer.init, defaultStrategies, dictGet,
        applyFormatter, in_context_learning, chain_of_thought, tree_of_thought,
        PromptEngineer.promptItem, pyJoin, isStr, List.all_append,
        all_isStr_map_str, Except.map]

end PromptEng
